import Mathlib

/-!
Verification development for the rsass value core: the css value algebra
(`src/css/value.rs`), the sass expression evaluator (`src/sass/value.rs`)
and the variable scope (`src/variablescope.rs`), shallowly embedded in Lean.
Rust `Rational` (exact arithmetic on `num_rational::Rational`) is embedded
as `ℚ`; `BTreeMap` variable maps are embedded as association lists whose
lookup takes the most recent binding.
-/

namespace Rsass

/-- Rust `Rational::to_integer` (`num_rational`): truncation toward zero. -/
def ratTrunc (q : ℚ) : Int := if q < 0 then ⌈q⌉ else ⌊q⌋

/-- Rust `Rational::fract`: `q` minus its truncation (keeps the sign of `q`). -/
def ratFract (q : ℚ) : ℚ := q - (ratTrunc q : ℚ)

/-- Rust `Rational::round`: to the nearest integer, half-way away from zero. -/
def ratRound (q : ℚ) : Int :=
  if q < 0 then -⌊1/2 - q⌋ else ⌊q + 1/2⌋

/-- Rust `as u8` on an integer: two's-complement truncation modulo 256. -/
def toU8 (i : Int) : Nat := (i.emod 256).toNat

/-- Lower-case hex digit, as printed by Rust `{:x}`. -/
def hexDigitChar (n : Nat) : Char :=
  if n < 10 then Char.ofNat (48 + n) else Char.ofNat (87 + n)

/-- Rust `{:02x}` on a `u8`: two lower-case hex digits. -/
def hex2 (n : Nat) : String :=
  String.mk [hexDigitChar (n / 16), hexDigitChar (n % 16)]

/-- Rust `{:x}` on a single hex digit (0..15). -/
def hex1 (n : Nat) : String := String.mk [hexDigitChar n]

/-- Rust `value::Quotes`: a literal can be double-quoted, single-quoted or unquoted. -/
inductive Quotes where
  | Double
  | Single
  | None
deriving DecidableEq, Repr

/-- Rust `value::ListSeparator`: comma- versus whitespace-separated lists. -/
inductive ListSeparator where
  | Comma
  | Space
deriving DecidableEq, Repr

/-- Rust `value::Operator` (operator.rs is not under src/; the constructor list is
the operator enumeration named by the spec in section 4.2). -/
inductive Operator where
  | Plus
  | Minus
  | Multiply
  | Divide
  | Modulo
  | Equal
  | NotEqual
  | Greater
  | GreaterE
  | Lesser
  | LesserE
  | And
  | Or
  | Not
deriving DecidableEq, Repr

/-- Modelled from the spec: unit.rs is not under src/. Section 3.1: units are
"an enumeration augmented with an unknown unit carrier"; the embedding carries
the unit token, with `Unit.None` for the absent unit, and two units are equal
exactly when their tokens agree. -/
inductive Unit where
  | None
  | Named (token : String)
deriving DecidableEq, Repr

/-- Modelled from the spec: the unit's trailing token as appended by the
formatter ("trailing unit token is appended with no separator", section 4.6). -/
def Unit.str : Unit → String
  | Unit.None => ""
  | Unit.Named token => token

/-- Modelled from the spec: operator surface tokens, used only by the
`Display` arms for unresolved `BinOp`/`UnaryOp` (operator.rs is not under
src/). -/
def Operator.str : Operator → String
  | .Plus => "+"
  | .Minus => "-"
  | .Multiply => "*"
  | .Divide => "/"
  | .Modulo => "%"
  | .Equal => "=="
  | .NotEqual => "!="
  | .Greater => ">"
  | .GreaterE => ">="
  | .Lesser => "<"
  | .LesserE => "<="
  | .And => " and "
  | .Or => " or "
  | .Not => "not "

namespace Css

/-- Rust `css::Value` (src/css/value.rs lines 12-45). `css::CallArgs` and
`SassFunction` live outside src/: call arguments are embedded as the list of
argument values (spec section 3.1, "Call (name, call-args)") and the function
handle of the `Function` variant as its optional bound name. `Map` is the
insertion-ordered `OrderMap` as a list of key/value pairs. -/
inductive Value where
  | Call (name : String) (args : List Value)
  | Function (name : String) (bound : Option String)
  | Div (a b : Value) (s1 s2 : Bool)
  | Literal (s : String) (q : Quotes)
  | List (elems : List Value) (sep : ListSeparator) (bracketed : Bool)
  | Numeric (v : ℚ) (u : Unit) (withSign calculated : Bool)
  | Color (r g b a : ℚ) (name : Option String)
  | Null
  | True
  | False
  | BinOp (a : Value) (op : Operator) (b : Value)
  | UnaryOp (op : Operator) (a : Value)
  | Map (entries : List (Value × Value))

/-- Rust `css::Value::scalar`. -/
def Value.scalar (v : Int) : Value :=
  Value.Numeric (v : ℚ) Unit.None false false

/-- Rust `css::Value::bool`. -/
def Value.bool (v : Bool) : Value :=
  if v then Value.True else Value.False

/-- The channel clamp inside `css::Value::rgba`. -/
def cap (n ff : ℚ) : ℚ := if n > ff then ff else if n < 0 then 0 else n

/-- Rust `css::Value::rgba`: a computed color, channels clamped to `[0,255]` and
alpha to `[0,1]`, source name cleared. -/
def Value.rgba (r g b a : ℚ) : Value :=
  Value.Color (cap r 255) (cap g 255) (cap b 255) (cap a 1) Option.none

/-- Rust `css::Value::is_calculated` (src/css/value.rs lines 101-107). -/
def Value.isCalculated : Value → Bool
  | Value.Numeric _ _ _ calculated => calculated
  | Value.Color _ _ _ _ Option.none => true
  | _ => false

/-- Rust `css::Value::is_true`: everything but `False` and `Null`. -/
def Value.isTrue : Value → Bool
  | Value.False | Value.Null => false
  | _ => true

mutual

/-- Rust `css::Value::into_calculated` (src/css/value.rs lines 109-123). -/
def Value.intoCalculated : Value → Value
  | Value.Numeric v unit withSign _ => Value.Numeric v unit withSign true
  | Value.List v sep bracketed => Value.List (intoCalculatedList v) sep bracketed
  | other => other

/-- Element-wise `into_calculated` over a list's elements. -/
def intoCalculatedList : List Value → List Value
  | [] => []
  | x :: xs => Value.intoCalculated x :: intoCalculatedList xs

end

mutual

/-- Rust `css::Value::is_null` (src/css/value.rs lines 133-141): `Null`, or an
unbracketed list all of whose elements are null. -/
def Value.isNull : Value → Bool
  | Value.Null => true
  | Value.List list _ false => allNull list
  | _ => false

/-- Rust `list.iter().all(|v| v.is_null())`. -/
def allNull : List Value → Bool
  | [] => true
  | x :: xs => Value.isNull x && allNull xs

end

/-- The escape-decoding loop inside `css::Value::unquote` (src/css/value.rs
lines 158-179), over the character list of a quoted literal. -/
def unquoteChars : List Char → List Char
  | [] => []
  | '\\' :: rest =>
    match rest with
    | [] => ['\\']
    | c :: rest' =>
      (if c = '0' then Char.ofNat 0xfffd
       else if '1' ≤ c ∧ c ≤ '9' then Char.ofNat (c.toNat - 48)
       else if 'a' ≤ c ∧ c ≤ 'f' then Char.ofNat (c.toNat - 97 + 10)
       else if 'A' ≤ c ∧ c ≤ 'F' then Char.ofNat (c.toNat - 65 + 10)
       else c) :: unquoteChars rest'
  | c :: rest => c :: unquoteChars rest

mutual

/-- Rust `css::Value::unquote` (src/css/value.rs lines 152-189): quoted literals
are escape-decoded and become unquoted, lists recurse, everything else is
returned unchanged. -/
def Value.unquote : Value → Value
  | Value.Literal s Quotes.None => Value.Literal s Quotes.None
  | Value.Literal s _ => Value.Literal (String.mk (unquoteChars s.data)) Quotes.None
  | Value.List list s b => Value.List (unquoteList list) s b
  | v => v

/-- Element-wise `unquote` over a list's elements. -/
def unquoteList : List Value → List Value
  | [] => []
  | x :: xs => Value.unquote x :: unquoteList xs

end

/-- The fractional-digit loop of `Decimals::fmt` (src/css/value.rs lines
467-481): up to four digits by repeated ×10 / truncate / fract, and if a
residue remains after the fourth digit, one rounded digit. Called with a
positive fraction and the remaining iteration count. -/
def fracLoop : ℚ → Nat → String
  | f, 0 => toString (ratRound (f * 10))
  | f, n + 1 =>
    let f10 := f * 10
    let d := ratTrunc f10
    let rest := ratFract f10
    toString d ++ (if rest = 0 then "" else fracLoop rest n)

/-- Rust `Decimals::fmt` (src/css/value.rs lines 450-483): the integer part with
sign / negative-zero / leading-zero-suppression handling, then the fractional
digits. -/
def decimals (r : ℚ) (withSign skipZero : Bool) : String :=
  let t := ratTrunc r
  let intPart :=
    if t = 0 then
      if r < 0 then "-0"
      else if withSign then "+0"
      else if r = 0 ∨ ¬skipZero then "0"
      else ""
    else
      (if withSign ∧ 0 ≤ t then "+" else "") ++ toString t
  let f := |ratFract r|
  intPart ++ (if f = 0 then "" else "." ++ fracLoop f 4)

/-- The color-name table `colors::rgb_to_name` (colors.rs is not under src/):
the formatter is parameterized over it. -/
def RgbTable := Nat → Nat → Nat → Option String

/-- The separator `join` string of the `List` display arm. -/
def sepStr (alt : Bool) : ListSeparator → String
  | ListSeparator.Comma => if alt then "," else ", "
  | ListSeparator.Space => " "

/-- The parenthesization test of the `List` display arm (src/css/value.rs
lines 354-359): an unbracketed inner list is parenthesized when the enclosing
list is bracketed and space-separated. -/
def needsParen (brackets : Bool) (sep : ListSeparator) : Value → Bool
  | Value.List _ _ false => brackets && sep == ListSeparator.Space
  | _ => false

/-- The joining step of the `List` display arm (src/css/value.rs lines
368-381): a single-element comma list gets a trailing comma, otherwise the
rendered elements are joined with the separator string. -/
def joinRendered (alt : Bool) (sep : ListSeparator) (rendered : List String) :
    String :=
  match sep, rendered with
  | ListSeparator.Comma, [x] => x ++ ","
  | _, _ => String.intercalate (sepStr alt sep) rendered

/-- Quote-escaping inside a quoted literal: `Quotes::Double` re-escapes `"`,
`Quotes::Single` re-escapes `'` (src/css/value.rs lines 257-279). -/
def escQuote (quote : Char) (s : String) : String :=
  String.mk (List.flatten (s.data.map fun c =>
    if c = quote then ['\\', quote] else [c]))

mutual

/-- Rust `impl Display for css::Value` (src/css/value.rs lines 254-432), with the
Rust formatter's `alternate` flag (set in compressed mode) as `alt` and the
color-name table as a parameter. `format!("{}", …)` on a sub-value starts a
fresh non-alternate formatter, so the `Map` arm and the `Call` arm's argument
list format their parts non-alternate, while `a.fmt(out)?` recursions keep
`alt`. -/
def fmtValue (tbl : RgbTable) (alt : Bool) : Value → String
  | Value.Literal s q =>
    match q with
    | Quotes.Double => "\"" ++ escQuote '"' s ++ "\""
    | Quotes.Single => "'" ++ escQuote '\'' s ++ "'"
    | Quotes.None => s
  | Value.Function n _ => "get-function(\"" ++ escQuote '"' n ++ "\")"
  | Value.Numeric v u withSign _ => decimals v withSign alt ++ u.str
  | Value.Color r g b a name? =>
    match name? with
    | some s => s
    | Option.none =>
      if a ≥ 1 then
        let r8 := toU8 (ratRound r)
        let g8 := toU8 (ratRound g)
        let b8 := toU8 (ratRound b)
        let short := r8 % 17 = 0 ∧ g8 % 17 = 0 ∧ b8 % 17 = 0
        let hexLen : Nat := if short then 4 else 7
        match tbl r8 g8 b8 with
        | some name =>
          if ¬(alt ∧ name.length > hexLen) then name
          else if alt ∧ short then "#" ++ hex1 (r8 / 17) ++ hex1 (g8 / 17) ++ hex1 (b8 / 17)
          else "#" ++ hex2 r8 ++ hex2 g8 ++ hex2 b8
        | Option.none =>
          if alt ∧ short then "#" ++ hex1 (r8 / 17) ++ hex1 (g8 / 17) ++ hex1 (b8 / 17)
          else "#" ++ hex2 r8 ++ hex2 g8 ++ hex2 b8
      else if a = 0 ∧ r = 0 ∧ g = 0 ∧ b = 0 then "transparent"
      else if alt then
        "rgba(" ++ toString (toU8 (ratRound r)) ++ "," ++
          toString (toU8 (ratRound g)) ++ "," ++
          toString (toU8 (ratRound b)) ++ "," ++
          decimals a false false ++ ")"
      else
        "rgba(" ++ toString (toU8 (ratRound r)) ++ ", " ++
          toString (toU8 (ratRound g)) ++ ", " ++
          toString (toU8 (ratRound b)) ++ ", " ++
          decimals a false false ++ ")"
  | Value.List v sep brackets =>
    let t := joinRendered alt sep (fmtElems tbl alt brackets sep v)
    (if brackets then "[" else "") ++ t ++ (if brackets then "]" else "")
  | Value.Div a b s1 s2 =>
    fmtValue tbl alt a ++ (if s1 then " " else "") ++ "/" ++
      (if s2 then " " else "") ++ fmtValue tbl alt b
  | Value.Call name args =>
    name ++ "(" ++ String.intercalate ", " (fmtArgList tbl args) ++ ")"
  | Value.BinOp a op b =>
    match op with
    | Operator.Plus => fmtValue tbl alt a ++ fmtValue tbl alt b
    | op => fmtValue tbl alt a ++ op.str ++ fmtValue tbl alt b
  | Value.UnaryOp op v => op.str ++ fmtValue tbl alt v
  | Value.True => "true"
  | Value.False => "false"
  | Value.Null => ""
  | Value.Map entries =>
    "(" ++ String.intercalate ", " (fmtPairs tbl entries) ++ ")"
termination_by v => sizeOf v

/-- The element renderer of the `List` display arm, realizing the Rust
`.iter().filter(|v| !v.is_null()).map(…)` chain as one pass: null elements
are dropped, each kept element is formatted with the same `alt` flag,
parenthesized when it is an unbracketed list and the enclosing list is
bracketed and space-separated. -/
def fmtElems (tbl : RgbTable) (alt brackets : Bool) (sep : ListSeparator) :
    List Value → List String
  | [] => []
  | v :: rest =>
    if v.isNull then fmtElems tbl alt brackets sep rest
    else
      (if needsParen brackets sep v then "(" ++ fmtValue tbl alt v ++ ")"
       else fmtValue tbl alt v) :: fmtElems tbl alt brackets sep rest
termination_by l => sizeOf l

/-- The `Map` display arm's entries, `"k: v"` each (non-alternate, as
`format!` starts a fresh formatter). -/
def fmtPairs (tbl : RgbTable) : List (Value × Value) → List String
  | [] => []
  | (k, v) :: rest =>
    (fmtValue tbl false k ++ ": " ++ fmtValue tbl false v) :: fmtPairs tbl rest
termination_by l => sizeOf l

/-- Modelled from the spec: `impl Display for css::CallArgs` is not under
src/; section 4.6 says call arguments "use the list-formatting rules", so the
`Call` arm comma-joins the formatted arguments (non-alternate, as the arm
passes them to a fresh `{}` formatter). -/
def fmtArgList (tbl : RgbTable) : List Value → List String
  | [] => []
  | v :: rest => fmtValue tbl false v :: fmtArgList tbl rest
termination_by l => sizeOf l

end

end Css

namespace Sass

/-- Rust `sass::Value` (src/sass/value.rs lines 12-44). `sass::CallArgs` lives
outside src/: call arguments are embedded as the list of argument expressions
(spec section 3.1, "Call (name, call-args)"). -/
inductive Value where
  | Call (name : String) (args : List Value)
  | Div (a b : Value) (s1 s2 : Bool)
  | Literal (s : String) (q : Quotes)
  | List (elems : List Value) (sep : ListSeparator)
  | Numeric (v : ℚ) (u : Unit) (withSign calculated : Bool)
  | Paren (a : Value)
  | Variable (name : String)
  | Color (r g b a : ℚ) (name : Option String)
  | Null
  | True
  | False
  | BinOp (a : Value) (op : Operator) (b : Value)
  | UnaryOp (op : Operator) (a : Value)
  | Interpolation (a : Value)

/-- Rust `sass::Value::is_calculated` (src/sass/value.rs lines 84-90). -/
def Value.isCalculated : Value → Bool
  | Value.Numeric _ _ _ calculated => calculated
  | Value.Color _ _ _ _ Option.none => true
  | _ => false

/-- Rust `sass::Value::is_true` (src/sass/value.rs lines 93-98). -/
def Value.isTrue : Value → Bool
  | Value.False | Value.Null => false
  | _ => true

/-- Rust `impl PartialOrd for sass::Value` (src/sass/value.rs lines 398-407):
`Rational::partial_cmp` is the total order on rationals, so two `Numeric`s
always compare (by rational value alone, units ignored); every other pair has
no ordering. -/
def valueCmp : Value → Value → Option Ordering
  | Value.Numeric a _ _ _, Value.Numeric b _ _ _ => some (cmp a b)
  | _, _ => Option.none

end Sass

/-- The error type carried by `functions::Error` results (error.rs is not
under src/): an opaque token. -/
abbrev FnError := String

/-- The outcome of the Rust `panic!` in the evaluator's `Call` arm: the
process aborts carrying the function name and the inner error. This is not a
recoverable error value of the library; the evaluator has no error-result
output at all. -/
structure Panicked where
  fname : String
  cause : FnError
deriving DecidableEq, Repr

/-- The external collaborators of `sass::Value::do_evaluate`
(src/sass/value.rs): the scope trait methods `get` and `call_function`
(variablescope for this evaluator is not under src/), the function registry
`functions::get_builtin_function`, `Operator::eval` (operator.rs) and the
color-name table used by `Display`. The registry is read-only during a
compilation (spec section 5), so builtins are embedded as pure functions on
the evaluated argument list. -/
structure EvalCtx where
  getVar : String → Css.Value
  callFunction : String → List Css.Value → Option Css.Value
  getBuiltin : String → Option (List Css.Value → Except FnError Css.Value)
  opEval : Operator → Css.Value → Css.Value → Css.Value
  rgbToName : Css.RgbTable

mutual

/-- Rust `sass::Value::do_evaluate` (src/sass/value.rs lines 111-234), producing a
css value or the `panic!` of the `Call` arm (and of a Rust `Rational`
division by zero in the color/number division, which also aborts). The
version of css::Value paired with this evaluator file has no bracket flag on
lists, so the `List` arm produces an unbracketed css list. -/
def doEvaluate (ctx : EvalCtx) : Sass.Value → Bool → Except Panicked Css.Value
  | Sass.Value.Literal v q, _ => .ok (Css.Value.Literal v q)
  | Sass.Value.Paren v, _ => doEvaluate ctx v true
  | Sass.Value.Color r g b a s, _ => .ok (Css.Value.Color r g b a s)
  | Sass.Value.Variable name, _ => .ok (ctx.getVar name).intoCalculated
  | Sass.Value.List v s, _ => do
    .ok (Css.Value.List (← evalList ctx v) s false)
  | Sass.Value.Call name args, _ => do
    let args ← evalList ctx args
    match ctx.callFunction name args with
    | some value => .ok value
    | Option.none =>
      match ctx.getBuiltin name with
      | some function =>
        match function args with
        | .ok v => .ok v
        | .error e => .error ⟨name, e⟩
      | Option.none => .ok (Css.Value.Call name args)
  | Sass.Value.Div a b space1 space2, arithmetic => do
    let aa ← doEvaluate ctx a arithmetic
    let bb ← doEvaluate ctx b (arithmetic || a.isCalculated)
    let a1 ← if !arithmetic && bb.isCalculated && !a.isCalculated then
        doEvaluate ctx a true
      else
        .ok aa
    if arithmetic || a1.isCalculated || bb.isCalculated then
      match a1, bb with
      | Css.Value.Color r g b' al _, Css.Value.Numeric n Unit.None _ _ =>
        if n = 0 then
          .error ⟨"/", "attempt to divide by zero"⟩
        else
          .ok (Css.Value.rgba (r / n) (g / n) (b' / n) al)
      | Css.Value.Numeric av au as' ac, Css.Value.Numeric bv bu bs bc =>
        if bv = 0 then
          .ok (Css.Value.Div (Css.Value.Numeric av au as' ac)
            (Css.Value.Numeric bv bu bs bc) space1 space2)
        else if bu = Unit.None then
          .ok (Css.Value.Numeric (av / bv) au false true)
        else if au = bu then
          .ok (Css.Value.Numeric (av / bv) Unit.None false true)
        else
          .ok (Css.Value.Div (Css.Value.Numeric av au as' ac)
            (Css.Value.Numeric bv bu bs bc) false false)
      | a1, bb => .ok (Css.Value.Div a1 bb false false)
    else
      .ok (Css.Value.Div a1 bb space1 space2)
  | Sass.Value.Numeric v u sign c, arithmetic =>
    .ok (Css.Value.Numeric v u sign (arithmetic || c))
  | Sass.Value.Null, _ => .ok Css.Value.Null
  | Sass.Value.True, _ => .ok Css.Value.True
  | Sass.Value.False, _ => .ok Css.Value.False
  | Sass.Value.BinOp a op b, _ => do
    let a' ← doEvaluate ctx a true
    let b' ← doEvaluate ctx b true
    .ok (ctx.opEval op a' b')
  | Sass.Value.UnaryOp op v, _ => do
    let value ← doEvaluate ctx v true
    match op, value with
    | Operator.Not, Css.Value.Numeric n _ _ _ => .ok (Css.Value.bool (decide (n = 0)))
    | Operator.Not, Css.Value.True => .ok Css.Value.False
    | Operator.Not, Css.Value.False => .ok Css.Value.True
    | Operator.Minus, Css.Value.Numeric n u _ _ =>
      .ok (Css.Value.Numeric (-n) u false true)
    | Operator.Plus, Css.Value.Numeric n u _ _ =>
      .ok (Css.Value.Numeric n u true true)
    | op, v' => .ok (Css.Value.UnaryOp op v')
  | Sass.Value.Interpolation v, _ => do
    let v' ← doEvaluate ctx v true
    match v'.unquote with
    | Css.Value.Null => .ok Css.Value.Null
    | Css.Value.Literal s _ => .ok (Css.Value.Literal s Quotes.None)
    | v' => .ok (Css.Value.Literal (Css.fmtValue ctx.rgbToName false v') Quotes.None)
termination_by v _ => sizeOf v

/-- Element-wise evaluation with `arithmetic=false`: the `List` arm's map,
and `CallArgs::evaluate` over the embedded argument list (callargs.rs is not
under src/; spec section 4.3, arguments "are evaluated in the caller's
scope"). A panic in any element aborts the whole evaluation, as in Rust. -/
def evalList (ctx : EvalCtx) : List Sass.Value → Except Panicked (List Css.Value)
  | [] => .ok []
  | x :: xs => do
    let v ← doEvaluate ctx x false
    let vs ← evalList ctx xs
    .ok (v :: vs)
termination_by l => sizeOf l

end

/-- Rust `sass::Value::evaluate` (src/sass/value.rs lines 108-110). -/
def evaluate (ctx : EvalCtx) (v : Sass.Value) : Except Panicked Css.Value :=
  doEvaluate ctx v false

namespace Vx

/-- Rust `valueexpression::Value`, the value type used by src/variablescope.rs.
Its declaring file is not under src/; the constructors and their field shapes
are exactly those matched by `ScopeImpl::do_evaluate` (src/variablescope.rs
lines 76-187), with `CallArgs` embedded as the argument list as elsewhere. -/
inductive Value where
  | Literal (s : String) (q : Quotes)
  | Paren (a : Value)
  | Color (r g b a : ℚ) (name : Option String)
  | Variable (name : String)
  | MultiSpace (elems : List Value)
  | MultiComma (elems : List Value)
  | Call (name : String) (args : List Value)
  | Product (a b : Value)
  | Div (a b : Value) (s1 s2 : Bool)
  | Numeric (v : ℚ) (u : Unit) (calculated : Bool)
  | Null
  | True
  | False
  | BinOp (a : Value) (op : Operator) (b : Value)

/-- Rust `is_calculated` on `valueexpression::Value` (declared outside src/; the
same definition as its two in-src siblings and spec section 3.1): the
`Numeric` flag, computed colors, nothing else. -/
def Value.isCalculated : Value → Bool
  | Value.Numeric _ _ calculated => calculated
  | Value.Color _ _ _ _ Option.none => true
  | _ => false

/-- Rust `Value::rgba` for this value type (declared outside src/; identical
clamping to the in-src constructors). -/
def Value.rgba (r g b a : ℚ) : Value :=
  Value.Color (Css.cap r 255) (Css.cap g 255) (Css.cap b 255) (Css.cap a 1)
    Option.none

/-- Rust `ScopeImpl` (src/variablescope.rs lines 10-14): optional parent and the
`BTreeMap` of variables, embedded as an association list whose lookup takes
the most recent binding (the mixin map plays no part in the claims under
study and is omitted). -/
inductive Scope where
  | mk (parent : Option Scope) (vars : List (String × Value))

/-- The parent pointer. -/
def Scope.parent : Scope → Option Scope
  | Scope.mk p _ => p

/-- The variable map. -/
def Scope.vars : Scope → List (String × Value)
  | Scope.mk _ v => v

/-- The strict chain of ancestor scopes, nearest first. -/
def Scope.ancestors : Scope → List Scope
  | Scope.mk Option.none _ => []
  | Scope.mk (some p) _ => p :: Scope.ancestors p

/-- Rust `BTreeMap::get` on the variable map. -/
def lookupVar : List (String × Value) → String → Option Value
  | [], _ => Option.none
  | (k, v) :: rest, name => if k = name then some v else lookupVar rest name

/-- Rust `BTreeMap::insert`: the new binding shadows any older one. -/
def insertVar (name : String) (v : Value) (vars : List (String × Value)) :
    List (String × Value) :=
  (name, v) :: vars

/-- Rust `ScopeImpl::get` (src/variablescope.rs lines 46-52): lookup here, else
delegate to the parent, else `Null`. -/
def Scope.get : Scope → String → Value
  | Scope.mk parent vars, name =>
    match lookupVar vars name with
    | some v => v
    | Option.none =>
      match parent with
      | some p => Scope.get p name
      | Option.none => Value.Null

/-- The stop conditions of the fueled scope evaluator: the `panic!` of the
`Call` arm (and of a Rust division by zero), or fuel exhaustion — the
`Variable` arm re-evaluates the value fetched from the scope, so the Rust
original can genuinely fail to terminate on cyclic variable definitions. -/
inductive VxStop where
  | panicked (p : Panicked)
  | spin
deriving DecidableEq, Repr

/-- The external collaborators of `ScopeImpl::do_evaluate`: the function
registry `functions::get_function` (functions.rs is not under src/; the
registry is read-only during a compilation per spec section 5, so functions
are embedded as pure, scope-reading callables), `Operator::eval`
(operator.rs) and the `Display` of this value type (both outside src/). -/
structure VxCtx where
  getFunction : String → Option (Scope → List Value → Except FnError Value)
  opEval : Operator → Value → Value → Value
  fmtV : Value → String

mutual

/-- Rust `ScopeImpl::do_evaluate` (src/variablescope.rs lines 76-187), with fuel
for the non-structural recursion of the `Variable` arm. -/
def sDoEvaluate (ctx : VxCtx) :
    Nat → Scope → Value → Bool → Except VxStop Value
  | 0, _, _, _ => .error VxStop.spin
  | fuel + 1, scope, val, arithmetic =>
    match val with
    | Value.Literal v q => .ok (Value.Literal v q)
    | Value.Paren v => sDoEvaluate ctx fuel scope v true
    | Value.Color r g b a s => .ok (Value.Color r g b a s)
    | Value.Variable name => sDoEvaluate ctx fuel scope (scope.get name) true
    | Value.MultiSpace v => do
      .ok (Value.MultiSpace (← sEvalList ctx fuel scope v))
    | Value.MultiComma v => do
      .ok (Value.MultiComma (← sEvalList ctx fuel scope v))
    | Value.Call name args =>
      match ctx.getFunction name with
      | some function =>
        match function scope args with
        | .ok v => .ok v
        | .error e => .error (VxStop.panicked ⟨name, e⟩)
      | Option.none => do
        .ok (Value.Call name (← sEvalList ctx fuel scope args))
    | Value.Product a b => do
      let a' ← sDoEvaluate ctx fuel scope a true
      let b' ← sDoEvaluate ctx fuel scope b true
      match a', b' with
      | Value.Numeric av au _, Value.Numeric bv bu _ =>
        if bu = Unit.None then .ok (Value.Numeric (av * bv) au true)
        else if au = Unit.None then .ok (Value.Numeric (av * bv) bu true)
        else
          .ok (Value.Literal (ctx.fmtV a' ++ "*" ++ ctx.fmtV b') Quotes.None)
      | a', b' =>
        .ok (Value.Literal (ctx.fmtV a' ++ "*" ++ ctx.fmtV b') Quotes.None)
    | Value.Div a b space1 space2 => do
      let aa ← sDoEvaluate ctx fuel scope a arithmetic
      let bb ← sDoEvaluate ctx fuel scope b (arithmetic || a.isCalculated)
      let a1 ← if !arithmetic && bb.isCalculated && !a.isCalculated then
          sDoEvaluate ctx fuel scope a true
        else
          .ok aa
      let fallback := Value.Literal
        (ctx.fmtV a1 ++ (if space1 && !arithmetic then " " else "") ++ "/" ++
          (if space2 && !arithmetic then " " else "") ++ ctx.fmtV bb)
        Quotes.None
      if arithmetic || a1.isCalculated || bb.isCalculated then
        match a1, bb with
        | Value.Color r g b' al _, Value.Numeric n Unit.None _ =>
          if n = 0 then
            .error (VxStop.panicked ⟨"/", "attempt to divide by zero"⟩)
          else
            .ok (Value.rgba (r / n) (g / n) (b' / n) al)
        | Value.Numeric av au ac, Value.Numeric bv bu bc =>
          if bv = 0 then
            .ok (Value.Div (Value.Numeric av au ac) (Value.Numeric bv bu bc)
              space1 space2)
          else if bu = Unit.None then .ok (Value.Numeric (av / bv) au true)
          else if au = bu then .ok (Value.Numeric (av / bv) Unit.None true)
          else .ok fallback
        | _, _ => .ok fallback
      else
        .ok fallback
    | Value.Numeric v u c => .ok (Value.Numeric v u (arithmetic || c))
    | Value.Null => .ok Value.Null
    | Value.True => .ok Value.True
    | Value.False => .ok Value.False
    | Value.BinOp a op b => do
      let a' ← sDoEvaluate ctx fuel scope a true
      let b' ← sDoEvaluate ctx fuel scope b true
      .ok (ctx.opEval op a' b')
termination_by fuel _ _ _ => (fuel, 0)

/-- Element-wise evaluation with `arithmetic=false`: the `MultiSpace` and
`MultiComma` maps, and `CallArgs::xyzzy` over the embedded argument list
(callargs.rs is not under src/). -/
def sEvalList (ctx : VxCtx) :
    Nat → Scope → List Value → Except VxStop (List Value)
  | _, _, [] => .ok []
  | fuel, scope, x :: xs => do
    let v ← sDoEvaluate ctx fuel scope x false
    let vs ← sEvalList ctx fuel scope xs
    .ok (v :: vs)
termination_by fuel _ l => (fuel, sizeOf l)

end

/-- Rust `ScopeImpl::define` (src/variablescope.rs lines 28-34): with `global` set
and a parent present, delegate to the parent; otherwise evaluate `val` on
this scope with arithmetic on and insert the result here. -/
def Scope.define (ctx : VxCtx) (fuel : Nat) :
    Scope → String → Value → Bool → Except VxStop Scope
  | Scope.mk (some parent) vars, name, val, true =>
    (Scope.define ctx fuel parent name val true).map
      fun p' => Scope.mk (some p') vars
  | s, name, val, _ =>
    (sDoEvaluate ctx fuel s val true).map
      fun v => Scope.mk s.parent (insertVar name v s.vars)
termination_by s _ _ _ => sizeOf s

end Vx

end Rsass

namespace Rsass

/-- Rust `sass::Value` predicate: is the value a `Numeric`? (the shape tested by
the `PartialOrd` implementation). -/
def Sass.Value.isNumeric : Sass.Value → Bool
  | Sass.Value.Numeric _ _ _ _ => true
  | _ => false

/-- An empty color-name table, for concrete evaluations. -/
def tblNone : Css.RgbTable := fun _ _ _ => Option.none

/-- A concrete evaluation context with no variables, no user functions and no
builtins. -/
def trivialCtx : EvalCtx :=
  ⟨fun _ => Css.Value.Null, fun _ _ => Option.none, fun _ => Option.none,
    fun op a b => Css.Value.BinOp a op b, tblNone⟩

/-- A concrete evaluation context whose only builtin, `fail`, returns an
error on every call. -/
def failCtx : EvalCtx :=
  ⟨fun _ => Css.Value.Null, fun _ _ => Option.none,
    fun n => if n = "fail" then some (fun _ => .error "boom") else Option.none,
    fun op a b => Css.Value.BinOp a op b, tblNone⟩

/-- A concrete scope-evaluator context with no registered functions. -/
def vxCtx : Vx.VxCtx :=
  ⟨fun _ => Option.none, fun op a b => Vx.Value.BinOp a op b, fun _ => ""⟩

/-- A parentless scope binding `x` to the literal number 1. -/
def rootScope : Vx.Scope :=
  Vx.Scope.mk Option.none [("x", Vx.Value.Numeric 1 Unit.None false)]

/-- A child of `rootScope` shadowing `x` with the literal number 2. -/
def childScope : Vx.Scope :=
  Vx.Scope.mk (some rootScope) [("x", Vx.Value.Numeric 2 Unit.None false)]

end Rsass

namespace Rsass

/-- C2 (counterexample): evaluating `not 0` — `UnaryOp(Not, e)` with `e` a
numeric zero — yields `True`, not the `False` the claim states: the `Not`
arm returns `bool(v.is_zero())`. -/
theorem c2_not_zero_counterexample :
    doEvaluate trivialCtx
        (Sass.Value.UnaryOp Operator.Not (Sass.Value.Numeric 0 Unit.None false false))
        false = .ok Css.Value.True ∧
      Css.Value.True ≠ Css.Value.False := by
  constructor
  · simp [doEvaluate, Css.Value.bool, Except.bind, Bind.bind]
  · intro h
    exact Css.Value.noConfusion h

/-- C2 (amended): `UnaryOp(Not, e)` where `e` evaluates to a Number folds to
`bool(v = 0)`: `True` exactly when the rational value is zero (so numeric
zero is falsy under this `not`), `False` otherwise. -/
theorem c2_not_numeric (ctx : EvalCtx) (e : Sass.Value) (b : Bool) (n : ℚ)
    (u : Unit) (ws c : Bool)
    (h : doEvaluate ctx e true = .ok (Css.Value.Numeric n u ws c)) :
    doEvaluate ctx (Sass.Value.UnaryOp Operator.Not e) b
      = .ok (Css.Value.bool (decide (n = 0))) := by
  simp [doEvaluate, h, Except.bind, Bind.bind]

/-- C3: in arithmetic context, dividing two Numbers with a zero divisor is
never an error: the result is the symbolic `Div` of the two evaluated
operands with the original spacing flags preserved. -/
theorem c3_div_by_zero (ctx : EvalCtx) (a b : Sass.Value) (s1 s2 : Bool)
    (av : ℚ) (au : Unit) (sa ca : Bool) (bv : ℚ) (bu : Unit) (sb cb : Bool)
    (ha : doEvaluate ctx a true = .ok (Css.Value.Numeric av au sa ca))
    (hb : doEvaluate ctx b true = .ok (Css.Value.Numeric bv bu sb cb))
    (hz : bv = 0) :
    doEvaluate ctx (Sass.Value.Div a b s1 s2) true
      = .ok (Css.Value.Div (Css.Value.Numeric av au sa ca)
          (Css.Value.Numeric bv bu sb cb) s1 s2) := by
  simp [doEvaluate, ha, hb, hz, Except.bind, Bind.bind]

/-- C3 witness: `1px / 0` in the trivial context. -/
theorem c3_div_by_zero_witness :
    doEvaluate trivialCtx
        (Sass.Value.Div (Sass.Value.Numeric 1 (Unit.Named "px") false false)
          (Sass.Value.Numeric 0 Unit.None false false) true false)
        true
      = .ok (Css.Value.Div (Css.Value.Numeric 1 (Unit.Named "px") false true)
          (Css.Value.Numeric 0 Unit.None false true) true false) :=
  c3_div_by_zero trivialCtx (Sass.Value.Numeric 1 (Unit.Named "px") false false)
    (Sass.Value.Numeric 0 Unit.None false false) true false
    1 (Unit.Named "px") false true 0 Unit.None false true
    (by simp [doEvaluate]) (by simp [doEvaluate]) rfl

/-- C4 (counterexample): a unitless numerator divided by a unit-bearing
divisor does not yield a Number carrying the divisor's unit, contrary to the
claim: `10 / 2px` evaluates to the symbolic `Div`, not `5px`. -/
theorem c4_unit_counterexample :
    doEvaluate trivialCtx
        (Sass.Value.Div (Sass.Value.Numeric 10 Unit.None false false)
          (Sass.Value.Numeric 2 (Unit.Named "px") false false) false false)
        true
      = .ok (Css.Value.Div (Css.Value.Numeric 10 Unit.None false true)
          (Css.Value.Numeric 2 (Unit.Named "px") false true) false false) ∧
      (Except.ok
          (Css.Value.Div (Css.Value.Numeric 10 Unit.None false true)
            (Css.Value.Numeric 2 (Unit.Named "px") false true) false false)
          : Except Panicked Css.Value)
        ≠ .ok (Css.Value.Numeric 5 (Unit.Named "px") false true) := by
  constructor
  · simp [doEvaluate, Except.bind, Bind.bind]
  · intro h
    simp at h

/-- C4 (amended): for division of two Numbers in arithmetic context with a
nonzero divisor, only the divisor's unit being `None` makes the result carry
the numerator's unit; equal units give a unitless Number; any other pair
(including a unitless numerator over a unit-bearing divisor) is left as the
symbolic `Div` with both spacing flags cleared. -/
theorem c4_div_units (ctx : EvalCtx) (a b : Sass.Value) (s1 s2 : Bool)
    (av : ℚ) (au : Unit) (sa ca : Bool) (bv : ℚ) (bu : Unit) (sb cb : Bool)
    (ha : doEvaluate ctx a true = .ok (Css.Value.Numeric av au sa ca))
    (hb : doEvaluate ctx b true = .ok (Css.Value.Numeric bv bu sb cb))
    (hz : bv ≠ 0) :
    doEvaluate ctx (Sass.Value.Div a b s1 s2) true
      = .ok (if bu = Unit.None then Css.Value.Numeric (av / bv) au false true
          else if au = bu then Css.Value.Numeric (av / bv) Unit.None false true
          else Css.Value.Div (Css.Value.Numeric av au sa ca)
            (Css.Value.Numeric bv bu sb cb) false false) := by
  by_cases h1 : bu = Unit.None
  · simp [doEvaluate, ha, hb, hz, h1, Except.bind, Bind.bind]
  · by_cases h2 : au = bu
    · simp [doEvaluate, ha, hb, hz, h1, h2, Except.bind, Bind.bind]
    · simp [doEvaluate, ha, hb, hz, h1, h2, Except.bind, Bind.bind]

/-- C4 witness: the amended theorem applied at `10px / 2px` in the trivial
context. -/
theorem c4_div_units_witness :
    doEvaluate trivialCtx
        (Sass.Value.Div (Sass.Value.Numeric 10 (Unit.Named "px") false false)
          (Sass.Value.Numeric 2 (Unit.Named "px") false false) false false)
        true
      = .ok (if Unit.Named "px" = Unit.None
          then Css.Value.Numeric ((10 : ℚ) / 2) (Unit.Named "px") false true
          else if Unit.Named "px" = Unit.Named "px"
          then Css.Value.Numeric ((10 : ℚ) / 2) Unit.None false true
          else Css.Value.Div (Css.Value.Numeric 10 (Unit.Named "px") false true)
            (Css.Value.Numeric 2 (Unit.Named "px") false true) false false) :=
  c4_div_units trivialCtx (Sass.Value.Numeric 10 (Unit.Named "px") false false)
    (Sass.Value.Numeric 2 (Unit.Named "px") false false) false false
    10 (Unit.Named "px") false true 2 (Unit.Named "px") false true
    (by simp [doEvaluate]) (by simp [doEvaluate]) (by norm_num)

/-- C2 witness: the amended theorem applied at `not 0` in the trivial
context. -/
theorem c2_not_numeric_witness :
    doEvaluate trivialCtx
        (Sass.Value.UnaryOp Operator.Not (Sass.Value.Numeric 0 Unit.None false false))
        false = .ok (Css.Value.bool (decide ((0 : ℚ) = 0))) :=
  c2_not_numeric trivialCtx (Sass.Value.Numeric 0 Unit.None false false) false 0
    Unit.None false true (by simp [doEvaluate])

/-- C6 (counterexample): ordering is not undefined for two Numbers with
incompatible units, contrary to the claim: `1px` and `2em` compare (as
`Some(Less)`), because `partial_cmp` compares the rationals alone. -/
theorem c6_ordering_counterexample :
    Sass.valueCmp (Sass.Value.Numeric 1 (Unit.Named "px") false false)
        (Sass.Value.Numeric 2 (Unit.Named "em") false false)
      = some Ordering.lt ∧
      (some Ordering.lt : Option Ordering) ≠ Option.none := by
  constructor
  · have : cmp (1 : ℚ) 2 = Ordering.lt := by
      rw [cmp_eq_lt_iff]
      norm_num
    simp [Sass.valueCmp, this]
  · simp

/-- C6 (amended): `partial_cmp` orders any two Numbers by their rational
values alone, units ignored; every pair in which either operand is not a
Number yields no ordering. -/
theorem c6_ordering (a b : ℚ) (u1 u2 : Unit) (s1 c1 s2 c2 : Bool) :
    Sass.valueCmp (Sass.Value.Numeric a u1 s1 c1) (Sass.Value.Numeric b u2 s2 c2)
        = some (cmp a b) ∧
      ∀ v w : Sass.Value, v.isNumeric = false ∨ w.isNumeric = false →
        Sass.valueCmp v w = Option.none := by
  constructor
  · simp [Sass.valueCmp]
  · intro v w h
    cases v <;> cases w <;> simp_all [Sass.valueCmp, Sass.Value.isNumeric]

/-- C6 witness: the amended theorem applied at `1px` versus `2em`, and at a
non-Number pair. -/
theorem c6_ordering_witness :
    (Sass.valueCmp (Sass.Value.Numeric 1 (Unit.Named "px") false false)
        (Sass.Value.Numeric 2 (Unit.Named "em") false false)
      = some (cmp (1 : ℚ) 2) ∧
      ∀ v w : Sass.Value, v.isNumeric = false ∨ w.isNumeric = false →
        Sass.valueCmp v w = Option.none) ∧
    Sass.valueCmp Sass.Value.True Sass.Value.Null = Option.none :=
  ⟨c6_ordering 1 2 (Unit.Named "px") (Unit.Named "em") false false false false,
    (c6_ordering 1 2 (Unit.Named "px") (Unit.Named "em") false false false false).2
      Sass.Value.True Sass.Value.Null (Or.inl (by simp [Sass.Value.isNumeric]))⟩

/-- C1 (counterexample): a builtin whose call returns an error makes the
evaluator panic (the `Panicked` outcome models the Rust `panic!`, which
aborts the process); no error-result value such as `FunctionError`/`BadCall`
is produced — the evaluator's output type has no such form at all. -/
theorem c1_call_error_counterexample :
    doEvaluate failCtx (Sass.Value.Call "fail" []) false
      = .error ⟨"fail", "boom"⟩ := by
  simp [doEvaluate, evalList, failCtx, Except.bind, Bind.bind]

/-- C1 (amended): when a `Call` resolves to a builtin whose call returns an
error, the evaluator aborts by panicking with the function name and the inner
cause; the failure is not propagated as a recoverable error result. -/
theorem c1_call_error (ctx : EvalCtx) (name : String) (args : List Sass.Value)
    (args' : List Css.Value) (f : List Css.Value → Except FnError Css.Value)
    (e : FnError) (arith : Bool)
    (hargs : evalList ctx args = .ok args')
    (huser : ctx.callFunction name args' = Option.none)
    (hbuiltin : ctx.getBuiltin name = some f)
    (herr : f args' = .error e) :
    doEvaluate ctx (Sass.Value.Call name args) arith = .error ⟨name, e⟩ := by
  simp [doEvaluate, hargs, huser, hbuiltin, herr, Except.bind, Bind.bind]

/-- C1 witness: the amended theorem applied to the failing builtin `fail`
with no arguments. -/
theorem c1_call_error_witness :
    doEvaluate failCtx (Sass.Value.Call "fail" []) true
      = .error ⟨"fail", "boom"⟩ :=
  c1_call_error failCtx "fail" [] [] (fun _ => .error "boom") "boom" true
    (by simp [evalList]) rfl (by simp [failCtx]) rfl

/-- Ancestors depend only on the parent pointer, not on this scope's own
variable map. -/
theorem ancestors_mk (p : Option Vx.Scope) (v1 v2 : List (String × Vx.Value)) :
    (Vx.Scope.mk p v1).ancestors = (Vx.Scope.mk p v2).ancestors := by
  cases p <;> simp [Vx.Scope.ancestors]

/-- C5 (counterexample): with `x = 1` in the root and `x = 2` shadowing it in
the child, `define("y", $x, global=true)` on the child binds `y` to 1 — the
delegation to the root happens before evaluation, so the root's binding is
used — whereas evaluating `$x` in the invoking child scope (as the claim
prescribes) gives 2. -/
theorem c5_define_global_counterexample :
    Vx.Scope.define vxCtx 3 childScope "y" (Vx.Value.Variable "x") true
      = .ok (Vx.Scope.mk (some (Vx.Scope.mk Option.none
          [("y", Vx.Value.Numeric 1 Unit.None true),
            ("x", Vx.Value.Numeric 1 Unit.None false)]))
          [("x", Vx.Value.Numeric 2 Unit.None false)]) ∧
    Vx.sDoEvaluate vxCtx 3 childScope (Vx.Value.Variable "x") true
      = .ok (Vx.Value.Numeric 2 Unit.None true) ∧
    Vx.Value.Numeric 1 Unit.None true ≠ Vx.Value.Numeric 2 Unit.None true := by
  refine ⟨?_, ?_, ?_⟩
  · simp [Vx.Scope.define, Vx.sDoEvaluate, Vx.Scope.get, Vx.lookupVar,
      Vx.insertVar, childScope, rootScope, Vx.Scope.parent, Vx.Scope.vars,
      Except.map]
  · simp [Vx.sDoEvaluate, Vx.Scope.get, Vx.lookupVar, childScope, rootScope]
  · intro h
    simp at h

/-- C5 (amended): `define(name, val, global)` with `global=true` delegates to
the parent before any evaluation, so `val` is evaluated in the scope where
the insertion happens (ultimately the root), with arithmetic context on —
not in the invoking scope; on a parentless scope, `val` is evaluated there
and the result inserted. -/
theorem c5_define_scope (ctx : Vx.VxCtx) (fuel : Nat) (name : String)
    (val : Vx.Value) :
    (∀ (parent : Vx.Scope) (vars : List (String × Vx.Value)),
      Vx.Scope.define ctx fuel (Vx.Scope.mk (some parent) vars) name val true
        = (Vx.Scope.define ctx fuel parent name val true).map
            (fun p' => Vx.Scope.mk (some p') vars)) ∧
    (∀ (vars : List (String × Vx.Value)) (g : Bool),
      Vx.Scope.define ctx fuel (Vx.Scope.mk Option.none vars) name val g
        = (Vx.sDoEvaluate ctx fuel (Vx.Scope.mk Option.none vars) val true).map
            (fun v => Vx.Scope.mk Option.none (Vx.insertVar name v vars))) := by
  constructor
  · intro parent vars
    simp [Vx.Scope.define]
  · intro vars g
    cases g <;> simp [Vx.Scope.define, Vx.Scope.parent, Vx.Scope.vars]

/-- C10: `define(name, val, global=false)` only evaluates `val` on the
invoked scope and inserts into its own variable map: the parent pointer — and
with it every ancestor scope, hence every ancestor binding observable through
`get` — is unchanged. -/
theorem c10_define_local_frame (ctx : Vx.VxCtx) (fuel : Nat) (s : Vx.Scope)
    (name : String) (val : Vx.Value) :
    (Vx.Scope.define ctx fuel s name val false
      = (Vx.sDoEvaluate ctx fuel s val true).map
          (fun v => Vx.Scope.mk s.parent (Vx.insertVar name v s.vars))) ∧
    ∀ s', Vx.Scope.define ctx fuel s name val false = .ok s' →
      s'.parent = s.parent ∧ s'.ancestors = s.ancestors := by
  have h1 : Vx.Scope.define ctx fuel s name val false
      = (Vx.sDoEvaluate ctx fuel s val true).map
          (fun v => Vx.Scope.mk s.parent (Vx.insertVar name v s.vars)) := by
    cases s with
    | mk p vars => cases p <;> simp [Vx.Scope.define, Vx.Scope.parent, Vx.Scope.vars]
  refine ⟨h1, ?_⟩
  intro s' h
  rw [h1] at h
  cases hres : Vx.sDoEvaluate ctx fuel s val true with
  | ok v =>
    rw [hres] at h
    simp [Except.map] at h
    subst h
    cases s with
    | mk p vars =>
      exact ⟨by simp [Vx.Scope.parent], by
        simp only [Vx.Scope.parent]
        exact ancestors_mk p _ vars⟩
  | error e =>
    rw [hres] at h
    simp [Except.map] at h

/-- C10 witness: the frame theorem applied on the child scope defining `z`
locally to `Null` (fuel 2 suffices to evaluate the literal). -/
theorem c10_define_local_frame_witness :
    (Vx.Scope.mk (some rootScope)
        (Vx.insertVar "z" Vx.Value.Null childScope.vars)).parent
        = childScope.parent ∧
      (Vx.Scope.mk (some rootScope)
        (Vx.insertVar "z" Vx.Value.Null childScope.vars)).ancestors
        = childScope.ancestors :=
  (c10_define_local_frame vxCtx 2 childScope "z" Vx.Value.Null).2
    (Vx.Scope.mk (some rootScope) (Vx.insertVar "z" Vx.Value.Null childScope.vars))
    (by simp [Vx.Scope.define, Vx.sDoEvaluate, childScope, Vx.Scope.parent,
      Vx.Scope.vars, Except.map])

/-- The decimal rendering of 3/5: one integer digit `0` (not suppressed when
`skip_zero` is off) and one fractional digit. -/
theorem decimals_three_fifths : Css.decimals (3/5) false false = "0.6" := by
  have hT : ratTrunc (3/5 : ℚ) = 0 := by norm_num [ratTrunc]
  have hF : ratFract (3/5 : ℚ) = 3/5 := by rw [ratFract, hT]; norm_num
  have hT6 : ratTrunc ((3 : ℚ)/5 * 10) = 6 := by norm_num [ratTrunc]
  have hF6 : ratFract ((3 : ℚ)/5 * 10) = 0 := by rw [ratFract, hT6]; norm_num
  have hA : |(3 : ℚ)/5| = 3/5 := by norm_num
  have hTi : ratTrunc (6 : ℚ) = 6 := by norm_num [ratTrunc]
  have hFi : ratFract (6 : ℚ) = 0 := by rw [ratFract, hTi]; norm_num
  rw [Css.decimals]
  norm_num [hT, hF, hA, hF6, hT6, hTi, hFi, Css.fracLoop]
  rfl

/-- C7 (counterexample): in compressed (alternate) mode, the alpha of
`rgba(1, 2, 3, 0.6)` is printed as `0.6`, with its leading zero — not `.6`
as the claim's leading-zero suppression would give. -/
theorem c7_rgba_counterexample :
    Css.fmtValue tblNone true (Css.Value.Color 1 2 3 (3/5) Option.none)
      = "rgba(1,2,3,0.6)" ∧
    "rgba(1,2,3,0.6)" ≠ "rgba(1,2,3,.6)" := by
  constructor
  · rw [Css.fmtValue]
    norm_num [ratRound, toU8]
    rw [decimals_three_fifths]
    rfl
  · decide

/-- C7 (amended): for a Color with no source name and alpha strictly between
0 and 1, compressed mode prints `rgba(r,g,b,a)` with no spaces after commas
and expanded mode prints `rgba(r, g, b, a)`; in both modes the alpha is
formatted by the Number rules without leading-zero suppression. -/
theorem c7_rgba_alpha (tbl : Css.RgbTable) (r g b a : ℚ)
    (h1 : 0 < a) (h2 : a < 1) :
    Css.fmtValue tbl true (Css.Value.Color r g b a Option.none)
      = "rgba(" ++ toString (toU8 (ratRound r)) ++ "," ++
          toString (toU8 (ratRound g)) ++ "," ++ toString (toU8 (ratRound b)) ++
          "," ++ Css.decimals a false false ++ ")" ∧
    Css.fmtValue tbl false (Css.Value.Color r g b a Option.none)
      = "rgba(" ++ toString (toU8 (ratRound r)) ++ ", " ++
          toString (toU8 (ratRound g)) ++ ", " ++ toString (toU8 (ratRound b)) ++
          ", " ++ Css.decimals a false false ++ ")" := by
  have hge : ¬(a ≥ 1) := not_le.mpr h2
  have hz : ¬(a = 0 ∧ r = 0 ∧ g = 0 ∧ b = 0) := by
    rintro ⟨h0, _⟩
    exact absurd h0 (ne_of_gt h1)
  constructor <;> rw [Css.fmtValue] <;> simp [hge, hz]

/-- C7 witness: the amended theorem applied at `rgba(1, 2, 3, 3/5)`. -/
theorem c7_rgba_alpha_witness :
    Css.fmtValue tblNone true (Css.Value.Color 1 2 3 (3/5) Option.none)
      = "rgba(" ++ toString (toU8 (ratRound 1)) ++ "," ++
          toString (toU8 (ratRound 2)) ++ "," ++ toString (toU8 (ratRound 3)) ++
          "," ++ Css.decimals (3/5) false false ++ ")" :=
  (c7_rgba_alpha tblNone 1 2 3 (3/5) (by norm_num) (by norm_num)).1

mutual

/-- Idempotence of `unquote` on every value. -/
theorem unquote_idem : ∀ v : Css.Value, v.unquote.unquote = v.unquote
  | Css.Value.Call n a => by simp [Css.Value.unquote]
  | Css.Value.Function n b => by simp [Css.Value.unquote]
  | Css.Value.Div a b s1 s2 => by simp [Css.Value.unquote]
  | Css.Value.Literal s q => by cases q <;> simp [Css.Value.unquote]
  | Css.Value.List l sep br => by simp [Css.Value.unquote, unquoteList_idem l]
  | Css.Value.Numeric v u ws c => by simp [Css.Value.unquote]
  | Css.Value.Color r g b a n => by simp [Css.Value.unquote]
  | Css.Value.Null => by simp [Css.Value.unquote]
  | Css.Value.True => by simp [Css.Value.unquote]
  | Css.Value.False => by simp [Css.Value.unquote]
  | Css.Value.BinOp a op b => by simp [Css.Value.unquote]
  | Css.Value.UnaryOp op a => by simp [Css.Value.unquote]
  | Css.Value.Map entries => by simp [Css.Value.unquote]
termination_by v => sizeOf v

/-- Element-wise idempotence of `unquote` over a list. -/
theorem unquoteList_idem :
    ∀ l : List Css.Value, Css.unquoteList (Css.unquoteList l) = Css.unquoteList l
  | [] => by simp [Css.unquoteList]
  | x :: xs => by simp [Css.unquoteList, unquote_idem x, unquoteList_idem xs]
termination_by l => sizeOf l

end

/-- C8: `unquote` is idempotent; a `Literal` carrying `Quotes::None` is
returned structurally unchanged (escape decoding applies only to quoted
literals); and lists are recursed element-wise with separator and brackets
preserved. -/
theorem c8_unquote_idempotent :
    (∀ v : Css.Value, v.unquote.unquote = v.unquote) ∧
    (∀ s, (Css.Value.Literal s Quotes.None).unquote
      = Css.Value.Literal s Quotes.None) ∧
    (∀ l sep br, (Css.Value.List l sep br).unquote
      = Css.Value.List (Css.unquoteList l) sep br) :=
  ⟨unquote_idem, fun s => by simp [Css.Value.unquote],
    fun l sep br => by simp [Css.Value.unquote]⟩

/-- Dropping a null element anywhere in a list leaves the rendered elements
unchanged: the display arm filters nulls out. -/
theorem fmtElems_skip (tbl : Css.RgbTable) (alt brackets : Bool)
    (sep : ListSeparator) (e : Css.Value) (he : e.isNull = true) :
    ∀ xs ys, Css.fmtElems tbl alt brackets sep (xs ++ e :: ys)
      = Css.fmtElems tbl alt brackets sep (xs ++ ys) := by
  intro xs
  induction xs with
  | nil => intro ys; simp [Css.fmtElems, he]
  | cons x xs ih =>
    intro ys
    cases hx : x.isNull <;> simp [Css.fmtElems, hx, ih]

/-- C9: an empty unbracketed List is null (all of its zero elements are
vacuously null), and when an enclosing list is formatted such an element is
filtered out, contributing nothing to the output. -/
theorem c9_empty_list_null :
    (∀ sep, (Css.Value.List [] sep false).isNull = true) ∧
    (∀ (tbl : Css.RgbTable) (alt : Bool) (xs ys : List Css.Value)
        (sep : ListSeparator) (br : Bool) (sep2 : ListSeparator),
      Css.fmtValue tbl alt
          (Css.Value.List (xs ++ Css.Value.List [] sep2 false :: ys) sep br)
        = Css.fmtValue tbl alt (Css.Value.List (xs ++ ys) sep br)) := by
  have hnull : ∀ sep, (Css.Value.List ([] : List Css.Value) sep false).isNull
      = true := by
    intro sep
    simp [Css.Value.isNull, Css.allNull]
  refine ⟨hnull, ?_⟩
  intro tbl alt xs ys sep br sep2
  rw [Css.fmtValue, Css.fmtValue,
    fmtElems_skip tbl alt br sep _ (hnull sep2)]

end Rsass
